/-
  Verification of the realtime conversation/message synchronization engine
  of the Swappify skill-bartering app (src/src/hooks/useRealtimeChat.ts and
  the Chat page's handleSendMessage), as a shallow embedding in Lean 4.

  The external datastore (Supabase) is modelled as an explicit `Store` value
  holding the rows of the four record types the core consumes; each query,
  insert or update of the source becomes a pure function over `Store`.
  Timestamps are modelled as `Nat` (the store orders rows by them); message
  content is modelled as `List Char` (a JS string of UTF-16 units), with
  `trimContent` embedding `String.prototype.trim` over common whitespace.
-/
import Mathlib

namespace Swappify

/-- A row of the `skills` table (fields the chat core reads). -/
structure Skill where
  id : String
  user_id : String
deriving Repr, DecidableEq

/-- A row of the `barter_requests` table (fields the chat core reads). -/
structure BarterRequest where
  id : String
  requester_id : String
  requested_skill_id : String
  offered_skill_id : String
  status : String
  updated_at : Nat
deriving Repr, DecidableEq

/-- A message row / realtime payload, mirroring the `Message` interface of
`useRealtimeChat.ts` (`barter_request_id` is optional there). Content is a
list of chars so that length and trimming mirror JS string operations. -/
structure Message where
  id : String
  sender_id : String
  content : List Char
  created_at : Nat
  barter_request_id : Option String
deriving Repr, DecidableEq

/-- A row of the `profiles_public` projection (fields the chat core reads);
`full_name` and `avatar_url` are nullable columns. -/
structure Profile where
  id : String
  full_name : Option String
  avatar_url : Option String
deriving Repr, DecidableEq

/-- The state of the external datastore as seen through the store gateway. -/
structure Store where
  skills : List Skill
  barter_requests : List BarterRequest
  messages : List Message
  profiles : List Profile
deriving Repr, DecidableEq

/-- The derived `Conversation` view, mirroring the `Conversation` interface
of `useRealtimeChat.ts`. -/
structure Conversation where
  id : String
  participant_id : String
  participant_name : String
  participant_avatar : String
  lastMessage : Option (List Char)
  lastMessageTime : Option Nat
  barter_request_id : Option String
deriving Repr, DecidableEq

/-- Whitespace recognized by JS `String.prototype.trim` (common ASCII part). -/
def isJsWhitespace (c : Char) : Bool :=
  c == ' ' || c == '\t' || c == '\n' || c == '\r'

/-- Embedding of JS `content.trim()`: strip leading and trailing whitespace. -/
def trimContent (s : List Char) : List Char :=
  ((s.dropWhile isJsWhitespace).reverse.dropWhile isJsWhitespace).reverse

/-- Embedding of the JS `||` fallback on a nullable string field
(`profile.full_name || 'Unknown User'`): null and `""` are falsy. -/
def strOr (s : Option String) (dflt : String) : String :=
  match s with
  | some v => if v = "" then dflt else v
  | none => dflt

/-- Owner of the requested skill, as produced by the
`skills!barter_requests_requested_skill_id_fkey(user_id)` join of
`fetchConversations`: `request.skills?.user_id`. -/
def requestedSkillOwner (store : Store) (request : BarterRequest) : Option String :=
  (store.skills.find? (fun s => s.id == request.requested_skill_id)).map Skill.user_id

/-- `useRealtimeChat.ts` line 70: the counterpart of the current user in a
barter request (`isRequester ? request.skills?.user_id : request.requester_id`). -/
def deriveOtherUserId (currentUserId : String) (store : Store) (request : BarterRequest) :
    Option String :=
  if request.requester_id = currentUserId then requestedSkillOwner store request
  else some request.requester_id

/-- The `messages` query of `fetchConversations` (order by `created_at`
descending, limit 1): most recent message of a thread. -/
def lastMessageFor (store : Store) (requestId : String) : Option Message :=
  (List.insertionSort (fun a b : Message => b.created_at ≤ a.created_at)
    (store.messages.filter (fun m => m.barter_request_id == some requestId))).head?

/-- One iteration of the `fetchConversations` loop (lines 62-101): classify
the user's role, skip non-participants, resolve the counterpart and their
public profile, attach the last-message preview; any lookup failure yields
`none` (the `continue` / `if (profile)` skips of the source). -/
def deriveConversation (currentUserId : String) (store : Store) (request : BarterRequest) :
    Option Conversation :=
  let isRequester := request.requester_id = currentUserId
  let isSkillOwner := requestedSkillOwner store request = some currentUserId
  if ¬isRequester ∧ ¬isSkillOwner then none
  else
    match deriveOtherUserId currentUserId store request with
    | none => none
    | some otherUserId =>
      match store.profiles.find? (fun p => p.id == otherUserId) with
      | none => none
      | some profile =>
        let lastMsg := lastMessageFor store request.id
        some { id := request.id
               participant_id := profile.id
               participant_name := strOr profile.full_name "Unknown User"
               participant_avatar := strOr profile.avatar_url ""
               lastMessage := lastMsg.map Message.content
               lastMessageTime := lastMsg.map Message.created_at
               barter_request_id := some request.id }

/-- The happy path of `fetchConversations`: all barter requests ordered by
`updated_at` descending, each mapped through the per-request derivation. -/
def fetchConversations (currentUserId : String) (store : Store) : List Conversation :=
  (List.insertionSort (fun a b : BarterRequest => b.updated_at ≤ a.updated_at)
    store.barter_requests).filterMap (deriveConversation currentUserId store)

/-- Outcome of running `fetchConversations` including its catch/finally
(lines 104-109): the new `conversations` state, whether the failure toast was
shown, and the final `loading` flag. -/
structure ConvFetchOutcome where
  conversations : List Conversation
  errorToast : Bool
  loading : Bool
deriving Repr, DecidableEq

/-- `fetchConversations` with its error path: if the top-level
`barter_requests` query fails (`topLevelOk = false`), the catch block shows
the error toast and `setConversations` is never called, so the previous list
is retained; `loading` becomes false on every path (the `finally`). -/
def fetchConversationsRun (currentUserId : String) (store : Store) (topLevelOk : Bool)
    (prevConversations : List Conversation) : ConvFetchOutcome :=
  if topLevelOk then ⟨fetchConversations currentUserId store, false, false⟩
  else ⟨prevConversations, true, false⟩

/-- The in-memory per-thread message state of the hook:
`messages: Record<string, Message[]>`, with `prev[requestId] || []` reading
an absent key as the empty list. -/
def ChatState : Type := String → List Message

/-- The initial in-memory message state (`useState({})`). -/
def emptyChat : ChatState := fun _ => []

/-- The hook's `fetchMessages` (lines 113-128): query the thread's messages
ordered by `created_at` ascending and replace that thread's entry
(`setMessages(prev => ({ ...prev, [barterRequestId]: data || [] }))`). -/
def fetchMessages (store : Store) (prev : ChatState) (barterRequestId : String) : ChatState :=
  fun k =>
    if k = barterRequestId then
      List.insertionSort (fun a b : Message => a.created_at ≤ b.created_at)
        (store.messages.filter (fun m => m.barter_request_id == some barterRequestId))
    else prev k

/-- The realtime `messages` INSERT handler (lines 218-237): if the payload
carries no parent request id the event is discarded; otherwise the message is
appended to that thread unless a message with the same id is already present. -/
def handleMessageInsert (prev : ChatState) (newMessage : Message) : ChatState :=
  match newMessage.barter_request_id with
  | none => prev
  | some requestId =>
    let existingMessages := prev requestId
    if existingMessages.any (fun m => m.id == newMessage.id) then prev
    else fun k => if k = requestId then existingMessages ++ [newMessage] else prev k

/-- First store write of `sendMessage`: insert the message row. -/
def insertMessageRow (store : Store) (m : Message) : Store :=
  { store with messages := store.messages ++ [m] }

/-- Second store write of `sendMessage`: bump the parent barter request's
`updated_at` to the current time. -/
def touchBarterRequest (store : Store) (requestId : String) (now : Nat) : Store :=
  { store with
    barter_requests := store.barter_requests.map
      (fun r => if r.id = requestId then { r with updated_at := now } else r) }

/-- Result of the send path: the store afterwards and whether any store call
was made. -/
structure SendOutcome where
  store : Store
  storeCalled : Bool
deriving Repr, DecidableEq

/-- The hook's `sendMessage` (lines 131-156): return immediately (no store
call) when there is no current user or the trimmed content is empty;
otherwise insert the message (content trimmed, id and timestamp assigned by
the store, passed here as `newMsgId`/`now`), then update the parent request's
`updated_at` — a second, independent store call that may fail
(`updateSucceeds = false`) without rolling back the insert. -/
def sendMessage (currentUserId : Option String) (store : Store) (barterRequestId : String)
    (content : List Char) (newMsgId : String) (now : Nat) (updateSucceeds : Bool) :
    SendOutcome :=
  match currentUserId with
  | none => ⟨store, false⟩
  | some uid =>
    if trimContent content = [] then ⟨store, false⟩
    else
      let msg : Message :=
        { id := newMsgId, sender_id := uid, content := trimContent content,
          created_at := now, barter_request_id := some barterRequestId }
      let store1 := insertMessageRow store msg
      if updateSucceeds then ⟨touchBarterRequest store1 barterRequestId now, true⟩
      else ⟨store1, true⟩

/-- The message length limit of the Chat page (`MAX_MESSAGE_LENGTH`). -/
def MAX_MESSAGE_LENGTH : Nat := 2000

/-- The Chat page's `handleSendMessage` (part_004 lines 49-64): return if no
conversation is selected or the trimmed message is empty; reject with a toast
if the trimmed message exceeds 2000 characters; otherwise hand the (untrimmed)
message to the hook's `sendMessage`. -/
def handleSendMessage (currentUserId : Option String) (selectedConversation : Option String)
    (message : List Char) (store : Store) (newMsgId : String) (now : Nat)
    (updateSucceeds : Bool) : SendOutcome :=
  match selectedConversation with
  | none => ⟨store, false⟩
  | some conv =>
    if trimContent message = [] then ⟨store, false⟩
    else if MAX_MESSAGE_LENGTH < (trimContent message).length then ⟨store, false⟩
    else sendMessage currentUserId store conv message newMsgId now updateSucceeds

/-- The validation toast of `getOrCreateConversation`'s missing-skill branch. -/
def selectSkillError : String := "Please select a skill to offer first"

/-- supabase's `maybeSingle()` as the source consumes it: the source reads
only `data` and ignores `error`, and `maybeSingle` yields `data = null` both
for zero matching rows and for the multi-row error case — the row itself is
returned only when exactly one row matches. -/
def maybeSingleData {α : Type} (rows : List α) : Option α :=
  match rows with
  | [a] => some a
  | _ => none

/-- Result of `getOrCreateConversation`: the returned conversation id, the
validation toast (if surfaced), and the store afterwards. -/
structure GocOutcome where
  returnedId : Option String
  toastError : Option String
  store : Store
deriving Repr, DecidableEq

/-- The hook's `getOrCreateConversation` (lines 159-202): bail out on a
missing user or a self-conversation; run the `maybeSingle` lookup for a
barter request whose requester is the current user — its unchecked error
means the id of such a request is returned only when exactly one exists,
while zero or several fall through; then require `offeredSkillId` (surfacing
the select-a-skill toast when absent) and insert a new barter request with
status `pending`, both skill fields set to `offeredSkillId` (id and
`updated_at` assigned by the store, passed here as `newRequestId`/`now`). -/
def getOrCreateConversation (currentUserId : Option String) (otherUserId : String)
    (offeredSkillId : Option String) (newRequestId : String) (now : Nat) (store : Store) :
    GocOutcome :=
  match currentUserId with
  | none => ⟨none, none, store⟩
  | some uid =>
    if uid = otherUserId then ⟨none, none, store⟩
    else
      match maybeSingleData (store.barter_requests.filter (fun r => r.requester_id == uid)) with
      | some existing => ⟨some existing.id, none, store⟩
      | none =>
        match offeredSkillId with
        | none => ⟨none, some selectSkillError, store⟩
        | some sid =>
          let newRequest : BarterRequest :=
            { id := newRequestId, requester_id := uid, requested_skill_id := sid,
              offered_skill_id := sid, status := "pending", updated_at := now }
          ⟨some newRequestId, none,
            { store with barter_requests := store.barter_requests ++ [newRequest] }⟩

/-! ### Helper lemmas -/

theorem dropWhile_eq_self_of_no (p : Char → Bool) (l : List Char)
    (h : ∀ c ∈ l, p c = false) : l.dropWhile p = l := by
  cases l with
  | nil => rfl
  | cons a as => simp [List.dropWhile_cons, h a (List.mem_cons_self a as)]

theorem trimContent_of_no_ws (l : List Char) (h : ∀ c ∈ l, isJsWhitespace c = false) :
    trimContent l = l := by
  unfold trimContent
  rw [dropWhile_eq_self_of_no _ _ h,
    dropWhile_eq_self_of_no _ _ (fun c hc => h c (List.mem_reverse.mp hc)),
    List.reverse_reverse]

theorem trimContent_replicate_a (n : Nat) :
    trimContent (List.replicate n 'a') = List.replicate n 'a' :=
  trimContent_of_no_ws _ (fun c hc => by rw [List.eq_of_mem_replicate hc]; rfl)

/-! ### Claims -/

/-- C1: the append path (Chat page validation followed by the hook's
`sendMessage`, called with a signed-in user and a selected conversation)
rejects without making any store call exactly when the trimmed content is
empty or the trimmed content exceeds `MAX_MESSAGE_LENGTH` (2000) characters;
a rejected call leaves the store untouched; content of exactly 2000
non-whitespace characters is accepted and reaches the store, content of 2001
is rejected. -/
theorem handleSendMessage_validates_locally (uid conv : String) (message : List Char)
    (store : Store) (newMsgId : String) (now : Nat) (updateSucceeds : Bool) :
    (((handleSendMessage (some uid) (some conv) message store newMsgId now
        updateSucceeds).storeCalled = false)
      ↔ (trimContent message = [] ∨ MAX_MESSAGE_LENGTH < (trimContent message).length)) ∧
    ((trimContent message = [] ∨ MAX_MESSAGE_LENGTH < (trimContent message).length) →
      handleSendMessage (some uid) (some conv) message store newMsgId now updateSucceeds
        = ⟨store, false⟩) ∧
    (handleSendMessage (some uid) (some conv) (List.replicate 2000 'a') store newMsgId now
      updateSucceeds).storeCalled = true ∧
    (handleSendMessage (some uid) (some conv) (List.replicate 2001 'a') store newMsgId now
      updateSucceeds).storeCalled = false := by
  have main : ∀ msg : List Char,
      (((handleSendMessage (some uid) (some conv) msg store newMsgId now
          updateSucceeds).storeCalled = false)
        ↔ (trimContent msg = [] ∨ MAX_MESSAGE_LENGTH < (trimContent msg).length)) ∧
      ((trimContent msg = [] ∨ MAX_MESSAGE_LENGTH < (trimContent msg).length) →
        handleSendMessage (some uid) (some conv) msg store newMsgId now updateSucceeds
          = ⟨store, false⟩) := by
    intro msg
    unfold handleSendMessage sendMessage
    by_cases he : trimContent msg = []
    · simp [he]
    · by_cases hl : MAX_MESSAGE_LENGTH < (trimContent msg).length
      · simp [he, hl]
      · cases updateSucceeds <;> simp [he, hl]
  refine ⟨(main message).1, (main message).2, ?_, ?_⟩
  · have h2000 := (main (List.replicate 2000 'a')).1
    rw [trimContent_replicate_a, List.length_replicate] at h2000
    rcases h : (handleSendMessage (some uid) (some conv) (List.replicate 2000 'a') store
        newMsgId now updateSucceeds).storeCalled with _ | _
    · rcases h2000.mp h with hc | hc
      · exact absurd hc (by simp)
      · exact absurd hc (by decide)
    · rfl
  · have h2001 := (main (List.replicate 2001 'a')).1
    rw [trimContent_replicate_a, List.length_replicate] at h2001
    exact h2001.mpr (Or.inr (by decide))

/-- C1 witness: whitespace-only content is rejected with no store call. -/
theorem handleSendMessage_validates_locally_witness :
    handleSendMessage (some "alice") (some "r1")
      [' ', '\t'] ⟨[], [], [], []⟩ "m9" 20 true = ⟨⟨[], [], [], []⟩, false⟩ :=
  (handleSendMessage_validates_locally "alice" "r1" [' ', '\t'] ⟨[], [], [], []⟩
    "m9" 20 true).2.1 (Or.inl (by decide))

/-- C9: on accepted content `sendMessage` performs the message insert first
and the `updated_at` bump second, as two separate store writes; if the second
write fails, the inserted message stays in the store (no rollback) and the
parent request's row is left untouched. -/
theorem sendMessage_two_phase_nonatomic (uid barterRequestId : String) (content : List Char)
    (newMsgId : String) (now : Nat) (store : Store)
    (h : trimContent content ≠ []) :
    (sendMessage (some uid) store barterRequestId content newMsgId now true).store =
      touchBarterRequest
        (insertMessageRow store
          { id := newMsgId, sender_id := uid, content := trimContent content,
            created_at := now, barter_request_id := some barterRequestId })
        barterRequestId now ∧
    (sendMessage (some uid) store barterRequestId content newMsgId now false).store =
      insertMessageRow store
        { id := newMsgId, sender_id := uid, content := trimContent content,
          created_at := now, barter_request_id := some barterRequestId } ∧
    (sendMessage (some uid) store barterRequestId content newMsgId now false).store.messages =
      store.messages ++
        [{ id := newMsgId, sender_id := uid, content := trimContent content,
           created_at := now, barter_request_id := some barterRequestId }] ∧
    (sendMessage (some uid) store barterRequestId content newMsgId now
        false).store.barter_requests = store.barter_requests := by
  unfold sendMessage
  simp [h, insertMessageRow, touchBarterRequest]

/-- C9 witness: a concrete accepted send with a failing timestamp update. -/
theorem sendMessage_two_phase_nonatomic_witness :
    (sendMessage (some "alice") ⟨[], [], [], []⟩ "r1" ['h', 'i'] "m9" 20 false).store.messages =
      [{ id := "m9", sender_id := "alice", content := ['h', 'i'],
         created_at := 20, barter_request_id := some "r1" }] :=
  (sendMessage_two_phase_nonatomic "alice" "r1" ['h', 'i'] "m9" 20 ⟨[], [], [], []⟩
    (by decide)).2.2.1

theorem handleMessageInsert_of_any (s : ChatState) (msg : Message) (rid : String)
    (hrid : msg.barter_request_id = some rid)
    (hany : (s rid).any (fun m => m.id == msg.id) = true) :
    handleMessageInsert s msg = s := by
  unfold handleMessageInsert
  rw [hrid]
  simp [hany]

theorem handleMessageInsert_of_not_any (s : ChatState) (msg : Message) (rid : String)
    (hrid : msg.barter_request_id = some rid)
    (hany : (s rid).any (fun m => m.id == msg.id) = false) :
    handleMessageInsert s msg = fun k => if k = rid then s rid ++ [msg] else s k := by
  unfold handleMessageInsert
  rw [hrid]
  simp [hany]

/-- C2: merging a message-insert event is idempotent on the message id: in
any state whose target thread does not already hold duplicate copies of that
id, delivering the same event twice leaves exactly one copy of the message in
the thread, and the second delivery does not change the state at all. -/
theorem handleMessageInsert_idempotent (s : ChatState) (msg : Message) (rid : String)
    (hrid : msg.barter_request_id = some rid)
    (hcount : ((s rid).filter (fun m => m.id == msg.id)).length ≤ 1) :
    handleMessageInsert (handleMessageInsert s msg) msg = handleMessageInsert s msg ∧
    (((handleMessageInsert s msg) rid).filter (fun m => m.id == msg.id)).length = 1 := by
  by_cases hany : (s rid).any (fun m => m.id == msg.id) = true
  · rw [handleMessageInsert_of_any s msg rid hrid hany]
    refine ⟨handleMessageInsert_of_any s msg rid hrid hany, ?_⟩
    obtain ⟨x, hx, hpx⟩ := List.any_eq_true.mp hany
    have hmem : x ∈ (s rid).filter (fun m => m.id == msg.id) :=
      List.mem_filter.mpr ⟨hx, hpx⟩
    have hpos : 0 < ((s rid).filter (fun m => m.id == msg.id)).length :=
      List.length_pos.mpr (List.ne_nil_of_mem hmem)
    omega
  · have hany' : (s rid).any (fun m => m.id == msg.id) = false :=
      Bool.eq_false_iff.mpr hany
    rw [handleMessageInsert_of_not_any s msg rid hrid hany']
    have hrid1 : (if rid = rid then s rid ++ [msg] else s rid) = s rid ++ [msg] := if_pos rfl
    have hfil : (s rid).filter (fun m => m.id == msg.id) = [] :=
      List.filter_eq_nil_iff.mpr (fun a ha => by
        have := List.any_eq_false.mp hany' a ha
        simpa using this)
    have hany2 : ((fun k => if k = rid then s rid ++ [msg] else s k) rid).any
        (fun m => m.id == msg.id) = true := by
      simp
    refine ⟨handleMessageInsert_of_any _ msg rid hrid hany2, ?_⟩
    simp [hfil]

/-- C2 witness: delivering one concrete event twice into the empty state. -/
theorem handleMessageInsert_idempotent_witness :
    (handleMessageInsert
        (handleMessageInsert emptyChat
          { id := "m1", sender_id := "alice", content := ['h', 'i'],
            created_at := 4, barter_request_id := some "r1" })
        { id := "m1", sender_id := "alice", content := ['h', 'i'],
          created_at := 4, barter_request_id := some "r1" }) =
      handleMessageInsert emptyChat
        { id := "m1", sender_id := "alice", content := ['h', 'i'],
          created_at := 4, barter_request_id := some "r1" } :=
  (handleMessageInsert_idempotent emptyChat
    { id := "m1", sender_id := "alice", content := ['h', 'i'],
      created_at := 4, barter_request_id := some "r1" } "r1" rfl (by decide)).1

/-- C7 counterexample: the live merge appends at the end of the thread
regardless of timestamps, so delivering an event whose `created_at` precedes
a message already in the thread leaves the in-memory collection out of
timestamp order — refuting the claim for arbitrary merge sequences. -/
theorem chat_order_counterexample :
    ¬ List.Pairwise (fun a b : Message => a.created_at ≤ b.created_at)
      ((handleMessageInsert
          (handleMessageInsert emptyChat
            { id := "m5", sender_id := "alice", content := ['h', 'i'],
              created_at := 5, barter_request_id := some "r1" })
          { id := "m3", sender_id := "bob", content := ['y', 'o'],
            created_at := 3, barter_request_id := some "r1" }) "r1") := by
  decide

instance : IsTotal Message (fun a b => a.created_at ≤ b.created_at) :=
  ⟨fun a b => Nat.le_total a.created_at b.created_at⟩

instance : IsTrans Message (fun a b => a.created_at ≤ b.created_at) :=
  ⟨fun _ _ _ => Nat.le_trans⟩

/-- C7 amended: `fetchMessages` always stores the thread sorted ascending by
`created_at` (and leaves other threads alone), and a live message-insert
merge keeps every thread sorted provided the event's timestamp is not below
the timestamps already in its thread (the merge appends at the end, so an
out-of-order event would break sortedness, as the counterexample shows). -/
theorem chat_order_amended :
    (∀ (store : Store) (prev : ChatState) (rid k : String),
      List.Pairwise (fun a b : Message => a.created_at ≤ b.created_at) (prev k) →
      List.Pairwise (fun a b : Message => a.created_at ≤ b.created_at)
        ((fetchMessages store prev rid) k)) ∧
    (∀ (s : ChatState) (msg : Message),
      (∀ k, List.Pairwise (fun a b : Message => a.created_at ≤ b.created_at) (s k)) →
      (∀ rid, msg.barter_request_id = some rid →
        ∀ m' ∈ s rid, m'.created_at ≤ msg.created_at) →
      ∀ k, List.Pairwise (fun a b : Message => a.created_at ≤ b.created_at)
        ((handleMessageInsert s msg) k)) := by
  constructor
  · intro store prev rid k hk
    unfold fetchMessages
    by_cases h : k = rid
    · simp only [h, if_pos rfl]
      exact List.sorted_insertionSort _ _
    · simpa [h] using hk
  · intro s msg hs hle k
    rcases hopt : msg.barter_request_id with _ | rid
    · unfold handleMessageInsert
      rw [hopt]
      exact hs k
    · by_cases hany : (s rid).any (fun m => m.id == msg.id) = true
      · rw [handleMessageInsert_of_any s msg rid hopt hany]
        exact hs k
      · rw [handleMessageInsert_of_not_any s msg rid hopt (Bool.eq_false_iff.mpr hany)]
        by_cases hk : k = rid
        · simp only [hk, if_pos rfl]
          refine List.pairwise_append.mpr ⟨hs rid, List.pairwise_singleton _ _, ?_⟩
          intro a ha b hb
          rw [List.mem_singleton.mp hb]
          exact hle rid hopt a ha
        · simpa [hk] using hs k

/-- C7 witness: a concrete history load lands sorted, and an in-order merge
into it stays sorted. -/
theorem chat_order_amended_witness :
    List.Pairwise (fun a b : Message => a.created_at ≤ b.created_at)
      ((fetchMessages
          ⟨[], [],
           [{ id := "m7", sender_id := "alice", content := ['h', 'i'],
              created_at := 7, barter_request_id := some "r1" },
            { id := "m2", sender_id := "bob", content := ['y', 'o'],
              created_at := 2, barter_request_id := some "r1" }], []⟩
          emptyChat "r1") "r1") :=
  chat_order_amended.1 _ emptyChat "r1" "r1" (by decide)

theorem deriveConversation_nonparticipant (uid : String) (store : Store) (r : BarterRequest)
    (h1 : r.requester_id ≠ uid) (h2 : requestedSkillOwner store r ≠ some uid) :
    deriveConversation uid store r = none := by
  unfold deriveConversation
  simp [h1, h2]

theorem mem_fetchConversations (uid : String) (store : Store) (c : Conversation) :
    c ∈ fetchConversations uid store ↔
      ∃ r ∈ store.barter_requests, deriveConversation uid store r = some c := by
  unfold fetchConversations
  rw [List.mem_filterMap]
  constructor
  · rintro ⟨r, hr, hd⟩
    exact ⟨r, (List.mem_insertionSort _).mp hr, hd⟩
  · rintro ⟨r, hr, hd⟩
    exact ⟨r, (List.mem_insertionSort _).mpr hr, hd⟩

/-- C3: a barter request in which the current user is neither the requester
nor the resolvable owner of the requested skill yields no conversation, and
every conversation in the derived list comes from a request in which the user
has one of the two roles. -/
theorem fetchConversations_excludes_nonparticipants (uid : String) (store : Store)
    (r : BarterRequest) (h1 : r.requester_id ≠ uid)
    (h2 : requestedSkillOwner store r ≠ some uid) :
    deriveConversation uid store r = none ∧
    ∀ c ∈ fetchConversations uid store, ∃ r' ∈ store.barter_requests,
      (r'.requester_id = uid ∨ requestedSkillOwner store r' = some uid) ∧
      deriveConversation uid store r' = some c := by
  refine ⟨deriveConversation_nonparticipant uid store r h1 h2, ?_⟩
  intro c hc
  obtain ⟨r', hr', hd⟩ := (mem_fetchConversations uid store c).mp hc
  refine ⟨r', hr', ?_, hd⟩
  by_contra hno
  push_neg at hno
  rw [deriveConversation_nonparticipant uid store r' hno.1 hno.2] at hd
  exact Option.noConfusion hd

/-- C3 witness: a bystander of a concrete request gets no conversation. -/
theorem fetchConversations_excludes_nonparticipants_witness :
    deriveConversation "carol"
      ⟨[⟨"s1", "bob"⟩], [⟨"r1", "alice", "s1", "s2", "pending", 10⟩], [],
       [⟨"bob", some "Bob", none⟩]⟩
      ⟨"r1", "alice", "s1", "s2", "pending", 10⟩ = none :=
  (fetchConversations_excludes_nonparticipants "carol"
    ⟨[⟨"s1", "bob"⟩], [⟨"r1", "alice", "s1", "s2", "pending", 10⟩], [],
     [⟨"bob", some "Bob", none⟩]⟩
    ⟨"r1", "alice", "s1", "s2", "pending", 10⟩ (by decide) (by decide)).1

/-- C4: during conversation derivation a per-request lookup failure (skill
owner unresolvable, or counterpart profile not found) makes only that request
yield no conversation, while every request whose derivation succeeds still
contributes its conversation to the list. -/
theorem fetchConversations_drops_only_failed_lookups (uid : String) (store : Store) :
    (∀ r, requestedSkillOwner store r = none → deriveConversation uid store r = none) ∧
    (∀ r oid, deriveOtherUserId uid store r = some oid →
      store.profiles.find? (fun p => p.id == oid) = none →
      deriveConversation uid store r = none) ∧
    (∀ r ∈ store.barter_requests, ∀ c, deriveConversation uid store r = some c →
      c ∈ fetchConversations uid store) := by
  refine ⟨?_, ?_, ?_⟩
  · intro r hown
    by_cases hreq : r.requester_id = uid
    · simp [deriveConversation, deriveOtherUserId, hreq, hown]
    · simp [deriveConversation, hreq, hown]
  · intro r oid hd hp
    by_cases hpart : ¬(r.requester_id = uid) ∧ ¬(requestedSkillOwner store r = some uid)
    · exact deriveConversation_nonparticipant uid store r hpart.1 hpart.2
    · simp only [deriveConversation, if_neg hpart]
      rw [hd]
      simp [hp]
  · intro r hr c hd
    exact (mem_fetchConversations uid store c).mpr ⟨r, hr, hd⟩

/-- The three-request store of the C4 scenario: `r2` references the deleted
skill `s9`, the other two requests resolve to counterpart profiles. -/
def c4store : Store :=
  { skills := [⟨"s1", "bob"⟩, ⟨"s3", "dave"⟩],
    barter_requests :=
      [⟨"r1", "alice", "s1", "s2", "pending", 10⟩,
       ⟨"r2", "alice", "s9", "s2", "pending", 9⟩,
       ⟨"r3", "alice", "s3", "s2", "pending", 8⟩],
    messages := [],
    profiles := [⟨"bob", some "Bob", none⟩, ⟨"dave", some "Dave", none⟩] }

/-- C4 witness: of three requests, the one referencing a deleted skill is
dropped and exactly two conversations are derived. -/
theorem fetchConversations_drops_only_failed_lookups_witness :
    deriveConversation "alice" c4store ⟨"r2", "alice", "s9", "s2", "pending", 9⟩ = none ∧
    (fetchConversations "alice" c4store).length = 2 :=
  ⟨(fetchConversations_drops_only_failed_lookups "alice" c4store).1
      ⟨"r2", "alice", "s9", "s2", "pending", 9⟩ (by decide),
    by decide⟩

theorem maybeSingleData_filter_of_find?_none {α : Type} (l : List α) (p : α → Bool)
    (h : l.find? p = none) :
    maybeSingleData (l.filter p) = none := by
  have hnil : l.filter p = [] :=
    List.filter_eq_nil_iff.mpr (fun a ha => List.find?_eq_none.mp h a ha)
  rw [hnil]
  rfl

/-- A store in which the requester `alice` already holds two barter requests
(the state `ProposeSwapDialog` produces after two proposals). -/
def twoRequestStore : Store :=
  { skills := [],
    barter_requests :=
      [⟨"r1", "alice", "s1", "s2", "pending", 10⟩,
       ⟨"r2", "alice", "s3", "s2", "pending", 11⟩],
    messages := [],
    profiles := [] }

/-- C5 counterexample: with two existing requests by the current user the
unchecked `maybeSingle` lookup yields null data, so the call falls into the
creation branch — it inserts a third request and returns the fresh id `r9`,
which is the id of no pre-existing request, refuting "at least one existing
request implies the existing id is returned and nothing is inserted". -/
theorem getOrCreate_existing_counterexample :
    (∃ r ∈ twoRequestStore.barter_requests, r.requester_id = "alice") ∧
    (getOrCreateConversation (some "alice") "zoe" (some "s1") "r9" 30
        twoRequestStore).store.barter_requests.length = 3 ∧
    (getOrCreateConversation (some "alice") "zoe" (some "s1") "r9" 30
        twoRequestStore).returnedId = some "r9" ∧
    ∀ r ∈ twoRequestStore.barter_requests, r.id ≠ "r9" := by
  decide

/-- C5 amended: when the store holds exactly one barter request whose
requester is the current user, `getOrCreateConversation` (called with a
distinct other user) returns that request's id and inserts nothing —
regardless of the other user and of `offeredSkillId`; with two or more such
requests the unchecked `maybeSingle` error makes the call fall through to the
creation branch instead. -/
theorem getOrCreate_returns_unique_existing (uid otherUserId : String)
    (offeredSkillId : Option String) (newRequestId : String) (now : Nat) (store : Store)
    (r0 : BarterRequest) (hne : uid ≠ otherUserId)
    (huniq : store.barter_requests.filter (fun r => r.requester_id == uid) = [r0]) :
    (getOrCreateConversation (some uid) otherUserId offeredSkillId newRequestId now
        store).store = store ∧
    r0 ∈ store.barter_requests ∧ r0.requester_id = uid ∧
    (getOrCreateConversation (some uid) otherUserId offeredSkillId newRequestId now
        store).returnedId = some r0.id := by
  have hr0 : r0 ∈ store.barter_requests.filter (fun r => r.requester_id == uid) := by
    rw [huniq]
    exact List.mem_singleton_self r0
  have hmem := List.mem_filter.mp hr0
  simp only [getOrCreateConversation]
  rw [if_neg hne, huniq]
  exact ⟨rfl, hmem.1, by simpa using hmem.2, rfl⟩

/-- C5 witness: with exactly one existing request by the requester, a call
naming an unrelated other user returns the existing id. -/
theorem getOrCreate_returns_unique_existing_witness :
    (getOrCreateConversation (some "alice") "zoe" none "r9" 30
        ⟨[], [⟨"r1", "alice", "s1", "s2", "pending", 10⟩], [], []⟩).returnedId =
      some "r1" :=
  (getOrCreate_returns_unique_existing "alice" "zoe" none "r9" 30
    ⟨[], [⟨"r1", "alice", "s1", "s2", "pending", 10⟩], [], []⟩
    ⟨"r1", "alice", "s1", "s2", "pending", 10⟩ (by decide) (by decide)).2.2.2

/-- C6: when no barter request by the current user exists, the call with no
`offeredSkillId` returns no id, surfaces the select-a-skill error and leaves
the store untouched; the call with an `offeredSkillId` inserts exactly one
new request with status `pending` and returns its id. -/
theorem getOrCreate_creates_when_none (uid otherUserId newRequestId : String) (now : Nat)
    (store : Store) (hne : uid ≠ otherUserId)
    (hnone : store.barter_requests.find? (fun r => r.requester_id == uid) = none) :
    getOrCreateConversation (some uid) otherUserId none newRequestId now store
      = ⟨none, some selectSkillError, store⟩ ∧
    ∀ sid : String,
      getOrCreateConversation (some uid) otherUserId (some sid) newRequestId now store
        = ⟨some newRequestId, none,
            { store with barter_requests := store.barter_requests ++
                [⟨newRequestId, uid, sid, sid, "pending", now⟩] }⟩ := by
  have hms := maybeSingleData_filter_of_find?_none store.barter_requests
    (fun r => r.requester_id == uid) hnone
  constructor
  · simp only [getOrCreateConversation]
    rw [if_neg hne, hms]
  · intro sid
    simp only [getOrCreateConversation]
    rw [if_neg hne, hms]

/-- C6 witness: the concrete two-call scenario of the spec. -/
theorem getOrCreate_creates_when_none_witness :
    getOrCreateConversation (some "alice") "bob" none "r9" 30 ⟨[], [], [], []⟩
      = ⟨none, some selectSkillError, ⟨[], [], [], []⟩⟩ ∧
    getOrCreateConversation (some "alice") "bob" (some "s1") "r9" 30 ⟨[], [], [], []⟩
      = ⟨some "r9", none, ⟨[], [⟨"r9", "alice", "s1", "s1", "pending", 30⟩], [], []⟩⟩ :=
  ⟨(getOrCreate_creates_when_none "alice" "bob" "r9" 30 ⟨[], [], [], []⟩
      (by decide) (by decide)).1,
   (getOrCreate_creates_when_none "alice" "bob" "r9" 30 ⟨[], [], [], []⟩
      (by decide) (by decide)).2 "s1"⟩

/-- C10: the creation branch inserts a request carrying only the caller's own
data — both skill fields equal `offeredSkillId` and no field references the
other user — so the whole outcome is identical for any two other users, and
any newly inserted request has both skill fields equal to `offeredSkillId`. -/
theorem getOrCreate_insert_ignores_other_user (uid other1 other2 sid newRequestId : String)
    (now : Nat) (store : Store) (h1 : uid ≠ other1) (h2 : uid ≠ other2)
    (hnone : store.barter_requests.find? (fun r => r.requester_id == uid) = none) :
    getOrCreateConversation (some uid) other1 (some sid) newRequestId now store
      = getOrCreateConversation (some uid) other2 (some sid) newRequestId now store ∧
    ∀ r ∈ (getOrCreateConversation (some uid) other1 (some sid) newRequestId now
        store).store.barter_requests,
      r ∉ store.barter_requests →
      r.requested_skill_id = sid ∧ r.offered_skill_id = sid ∧ r.requester_id = uid := by
  have e1 : getOrCreateConversation (some uid) other1 (some sid) newRequestId now store
      = ⟨some newRequestId, none,
          { store with barter_requests := store.barter_requests ++
              [⟨newRequestId, uid, sid, sid, "pending", now⟩] }⟩ := by
    simp only [getOrCreateConversation]
    rw [if_neg h1, maybeSingleData_filter_of_find?_none store.barter_requests
      (fun r => r.requester_id == uid) hnone]
  have e2 : getOrCreateConversation (some uid) other2 (some sid) newRequestId now store
      = ⟨some newRequestId, none,
          { store with barter_requests := store.barter_requests ++
              [⟨newRequestId, uid, sid, sid, "pending", now⟩] }⟩ := by
    simp only [getOrCreateConversation]
    rw [if_neg h2, maybeSingleData_filter_of_find?_none store.barter_requests
      (fun r => r.requester_id == uid) hnone]
  refine ⟨e1.trans e2.symm, ?_⟩
  intro r hr hnotold
  rw [e1] at hr
  rcases List.mem_append.mp hr with hold | hnew
  · exact absurd hold hnotold
  · rw [List.mem_singleton.mp hnew]
    exact ⟨rfl, rfl, rfl⟩

/-- C10 witness: two calls for different other users produce the same
outcome, and the inserted row copies `offeredSkillId` into both skill
fields. -/
theorem getOrCreate_insert_ignores_other_user_witness :
    getOrCreateConversation (some "alice") "bob" (some "s1") "r9" 30 ⟨[], [], [], []⟩
      = getOrCreateConversation (some "alice") "zoe" (some "s1") "r9" 30 ⟨[], [], [], []⟩ :=
  (getOrCreate_insert_ignores_other_user "alice" "bob" "zoe" "s1" "r9" 30 ⟨[], [], [], []⟩
    (by decide) (by decide) (by decide)).1

/-- C8 counterexample: a failing top-level fetch retains the last-known-good
conversation list instead of emptying it — with a non-empty previous list the
resulting list is not empty, refuting the claim's "resulting conversation
list is empty" for every prior state. -/
theorem fetch_failure_counterexample :
    (fetchConversationsRun "alice" ⟨[], [], [], []⟩ false
        [⟨"r1", "bob", "Bob", "", none, none, some "r1"⟩]).errorToast = true ∧
    (fetchConversationsRun "alice" ⟨[], [], [], []⟩ false
        [⟨"r1", "bob", "Bob", "", none, none, some "r1"⟩]).conversations ≠ [] := by
  decide

/-- C8 amended: a failing top-level fetch surfaces the error toast, retains
the previous conversation list unchanged (so the list is empty exactly when
it already was, e.g. on initial load), clears `loading`, and the operation
total-functionally terminates (no crash). -/
theorem fetch_failure_amended (uid : String) (store : Store)
    (prevConversations : List Conversation) :
    fetchConversationsRun uid store false prevConversations
      = ⟨prevConversations, true, false⟩ := by
  unfold fetchConversationsRun
  simp

end Swappify
